import Mathlib

/-!
Shallow embedding of `src/backup_script.py` (RohanDas28/DBBackupUtility).

The program is a sequential orchestration loop around three external
collaborators: the `mysqldump` process, the `git` client, and the Discord
webhook library.  The embedding models each external call by its observable
interface (an exit code for a subprocess, a status code or a thrown message
for the webhook) and models the export directory as a list of files, each a
name (relative to the export directory) with a modification time in seconds.
File contents are not modeled: no claim depends on them beyond existence.

Faithfulness notes, keyed to the source:
- `BackupConfig` mirrors the dataclass at lines 21-32.
- `from_user_input` mirrors lines 34-64: the answers to the interactive
  prompts are the fields of `UserInput` (the two yes/no answers kept as raw
  strings, since the code tests `.lower().startswith("y")`); `int(input(..))`
  is modeled as an already-parsed integer.  A raised `ValueError` is the
  `Except.error` branch.
- `setup_git_repo` mirrors `_setup_git_repo` (lines 81-94); the state of the
  working copy is whether the `.git` entry exists plus the list of registered
  remote names, and the result carries how many git commands were issued.
  A successful `git init` creates the `.git` entry even when a later step
  fails, which the partial-failure branches reflect.
- `create_backup` mirrors lines 96-117.  The call at line 110 passes
  `stdout=` together with `capture_output=True`; Python's `subprocess.run`
  rejects that combination by raising
  `ValueError("stdout and stderr arguments may not be used with capture_output.")`
  before any child process is launched, so `mysqldump` never runs.  The
  argument `backup_file.open(mode w)` is evaluated first, so the target file
  is still created (or truncated) in the directory.  The except clause at
  line 115 catches only `subprocess.CalledProcessError`, so the `ValueError`
  escapes: the function always raises, and both `return backup_file`
  (line 113) and `return None` (line 117) are dead code.  The result type
  `Except String (Option String)` records the raise as the error branch and
  keeps the two dead returns representable as `Except.ok`.
- `send_to_discord` mirrors lines 119-142: an empty or absent webhook URL is
  falsy in Python, so it is skipped; status 200 is compared exactly; the
  whole body is inside a broad except handler, so a thrown message becomes a
  logged failure and the function always returns.
- `commit_to_git` mirrors lines 144-158: three git sub-steps, each aborting
  the rest on non-zero exit; the handler logs and returns.  None of the git
  sub-commands (add, commit, push) removes files from the working tree, so
  the directory passes through unchanged.
- `cleanup_old_backups` mirrors lines 160-170: it iterates over
  `glob(*.sql)` and unlinks files with `st_mtime < cutoff.timestamp()` where
  `cutoff = now - timedelta(hours=retention)`; a successful sweep (no
  per-file deletion errors) is modeled.
- `run_cycle` and `main_loop` mirror the loop at lines 178-191: the walrus
  test on `create_backup()` gates git, discord and cleanup, and the sleep is
  `interval_hours * 60` minutes, i.e. `interval_hours * 60 * 60` seconds.
  Both gated branches are written as they appear in the source, but because
  `create_backup` always raises, a cycle always takes the exception path:
  no downstream step runs, the sleep at line 191 is never reached, and the
  exception escapes the `while` loop to the except-Exception handler at
  lines 195-197, which logs and re-raises, terminating the process — so
  `main_loop` stops at the first cycle and reports the escaping exception.
-/

/-- Python `str.lower()`: lower-case every character. -/
def pyLower (s : String) : String :=
  ⟨s.data.map Char.toLower⟩

/-- Python `str.strip()`: drop whitespace from both ends. -/
def pyStrip (s : String) : String :=
  ⟨(((s.data.dropWhile Char.isWhitespace).reverse).dropWhile Char.isWhitespace).reverse⟩

/-- Python `str.startswith(p)`. -/
def pyStartsWith (s p : String) : Bool :=
  p.data.isPrefixOf s.data

/-- Python `str.endswith(p)`. -/
def pyEndsWith (s p : String) : Bool :=
  p.data.isSuffixOf s.data

/-- Configuration record: the `BackupConfig` dataclass (lines 21-32). -/
structure BackupConfig where
  use_git : Bool
  use_discord : Bool
  db_user : String
  db_password : String
  db_name : String
  export_dir : String
  webhook_url : Option String
  backup_interval_hours : Int
  retention_period_hours : Int
deriving DecidableEq

/-- The answers supplied to the interactive prompts of
`BackupConfig.from_user_input`, in prompt order (lines 38-50). -/
structure UserInput where
  use_git_answer : String
  use_discord_answer : String
  db_user_answer : String
  db_password_answer : String
  db_name_answer : String
  export_dir_answer : String
  webhook_url_answer : String
  backup_interval_hours : Int
  retention_period_hours : Int
deriving DecidableEq

/-- `BackupConfig.from_user_input` (lines 34-64): build the config from the
prompt answers, then validate non-empty credentials and positive intervals.
A `ValueError` (logged and re-raised) is the error branch. -/
def from_user_input (i : UserInput) : Except String BackupConfig :=
  if pyStrip i.db_user_answer = "" ∨ pyStrip i.db_password_answer = "" ∨
      pyStrip i.db_name_answer = "" then
    Except.error "Database credentials cannot be empty"
  else if i.backup_interval_hours ≤ 0 ∨ i.retention_period_hours ≤ 0 then
    Except.error "Time intervals must be positive"
  else
    Except.ok
      { use_git := pyStartsWith (pyLower i.use_git_answer) "y"
        use_discord := pyStartsWith (pyLower i.use_discord_answer) "y"
        db_user := pyStrip i.db_user_answer
        db_password := pyStrip i.db_password_answer
        db_name := pyStrip i.db_name_answer
        export_dir := pyStrip i.export_dir_answer
        webhook_url :=
          if pyStartsWith (pyLower i.use_discord_answer) "y" then
            some (pyStrip i.webhook_url_answer)
          else none
        backup_interval_hours := i.backup_interval_hours
        retention_period_hours := i.retention_period_hours }

/-- A file in the export directory: name relative to the directory and
modification time in seconds since the epoch. -/
structure FsFile where
  name : String
  mtime : Int
deriving DecidableEq

/-- Opening a path with mode w: create the entry (or truncate an existing
one), stamping the current time. -/
def writeFile (dir : List FsFile) (name : String) (mtime : Int) : List FsFile :=
  ⟨name, mtime⟩ :: dir.filter (fun f => f.name != name)

/-- A wall-clock instant as `datetime.now()` exposes it to
`strftime("%Y%m%d_%H%M%S")`: calendar fields at second resolution. -/
structure Timestamp where
  year : Nat
  month : Nat
  day : Nat
  hour : Nat
  minute : Nat
  second : Nat
deriving DecidableEq

/-- Field bounds guaranteed by Python `datetime` for any real clock reading
in years 1000-9999 (Python caps years at 9999; below 1000 the platform
`%Y` may drop the zero padding, so such years are excluded). -/
def Timestamp.valid (t : Timestamp) : Prop :=
  1000 ≤ t.year ∧ t.year ≤ 9999 ∧ 1 ≤ t.month ∧ t.month ≤ 12 ∧
    1 ≤ t.day ∧ t.day ≤ 31 ∧ t.hour ≤ 23 ∧ t.minute ≤ 59 ∧ t.second ≤ 59

instance (t : Timestamp) : Decidable t.valid := by
  unfold Timestamp.valid; exact inferInstance

/-- Zero-padded two-digit decimal rendering, as `%m %d %H %M %S` produce it;
agrees with C-style %02d on every argument below 100, which covers every
field a valid `datetime` can supply. -/
def pad2 (n : Nat) : String :=
  String.mk [Nat.digitChar (n / 10 % 10), Nat.digitChar (n % 10)]

/-- Zero-padded four-digit decimal rendering, as `%Y` produces it; agrees
with C-style %04d on every argument below 10000 (Python `datetime` years
never exceed 9999). -/
def pad4 (n : Nat) : String :=
  String.mk [Nat.digitChar (n / 1000 % 10), Nat.digitChar (n / 100 % 10),
    Nat.digitChar (n / 10 % 10), Nat.digitChar (n % 10)]

/-- `datetime.now().strftime("%Y%m%d_%H%M%S")` (line 98). -/
def strftime_backup (t : Timestamp) : String :=
  pad4 t.year ++ pad2 t.month ++ pad2 t.day ++ "_" ++
    pad2 t.hour ++ pad2 t.minute ++ pad2 t.second

/-- The artifact name `f"{db_name}_{timestamp}.sql"` (line 99). -/
def backup_filename (db_name : String) (t : Timestamp) : String :=
  db_name ++ "_" ++ strftime_backup t ++ ".sql"

/-- The message of the `ValueError` that `subprocess.run` raises when given
`stdout=` together with `capture_output=True`, as the call at line 110 does. -/
def subprocess_run_conflict_msg : String :=
  "stdout and stderr arguments may not be used with capture_output."

/-- `DatabaseBackup.create_backup` (lines 96-117).  `now` is the clock at
the moment the target file is opened.  The arguments of `subprocess.run`
are evaluated first, so `backup_file.open(mode w)` creates (or truncates)
the target entry; then `subprocess.run` raises `ValueError` because the
call combines `stdout=` with `capture_output=True`, before launching
`mysqldump`.  The handler at line 115 catches only `CalledProcessError`,
so every call ends in the error branch with the empty file left in the
directory; the `Except.ok` returns of lines 113 and 117 are dead code. -/
def create_backup (cfg : BackupConfig) (t : Timestamp) (now : Int)
    (dir : List FsFile) : Except String (Option String) × List FsFile :=
  (Except.error subprocess_run_conflict_msg,
    writeFile dir (backup_filename cfg.db_name t) now)

/-- What `webhook.execute()` hands back: an HTTP response with a status
code, or a transport-level throw from the webhook library. -/
inductive WebhookResult
  | response (status : Nat)
  | thrown (message : String)
deriving DecidableEq

/-- The observable outcome of `send_to_discord`: the guard returned early,
or a success log line, or a logged failure (status or caught throw).  There
is no constructor for an escaping throw: the body sits in a broad except
handler, so the function always returns to the caller. -/
inductive DiscordOutcome
  | skipped
  | success
  | statusFailure (status : Nat)
  | caughtFailure (message : String)
deriving DecidableEq

/-- `DatabaseBackup.send_to_discord` (lines 119-142).  The guard mirrors
`if not use_discord or not webhook_url` (both `None` and the empty string
are falsy); the status test mirrors `response.status_code == 200`. -/
def send_to_discord (cfg : BackupConfig) (res : WebhookResult) : DiscordOutcome :=
  if cfg.use_discord = false ∨ cfg.webhook_url = none ∨ cfg.webhook_url = some "" then
    DiscordOutcome.skipped
  else
    match res with
    | WebhookResult.response s =>
        if s = 200 then DiscordOutcome.success else DiscordOutcome.statusFailure s
    | WebhookResult.thrown m => DiscordOutcome.caughtFailure m

/-- The observable outcome of `commit_to_git`: the guard returned early, all
three sub-steps succeeded, or the named sub-step exited non-zero and the
`CalledProcessError` handler logged and returned. -/
inductive GitOutcome
  | skipped
  | pushed
  | failedStep (step : String)
deriving DecidableEq

/-- `DatabaseBackup.commit_to_git` (lines 144-158).  Each exit code is the
result of the corresponding git subprocess; a non-zero exit aborts the
remaining sub-steps.  git add, commit and push never unlink files from the
working tree, so the directory passes through unchanged. -/
def commit_to_git (cfg : BackupConfig) (addExit commitExit pushExit : Nat)
    (dir : List FsFile) : GitOutcome × List FsFile :=
  if cfg.use_git = false then (GitOutcome.skipped, dir)
  else if addExit ≠ 0 then (GitOutcome.failedStep "add", dir)
  else if commitExit ≠ 0 then (GitOutcome.failedStep "commit", dir)
  else if pushExit ≠ 0 then (GitOutcome.failedStep "push", dir)
  else (GitOutcome.pushed, dir)

/-- `pathlib` matching for the pattern `*.sql` used at line 164: a name
matches exactly when it ends with `.sql`. -/
def matchesSqlGlob (name : String) : Bool :=
  pyEndsWith name ".sql"

/-- `DatabaseBackup.cleanup_old_backups` (lines 160-170), for a sweep in
which every attempted deletion succeeds: keep a file unless it matches
`*.sql` and its `st_mtime` is strictly below
`(now - timedelta(hours=retention)).timestamp()`. -/
def cleanup_old_backups (retention_period_hours : Int) (now : Int)
    (dir : List FsFile) : List FsFile :=
  dir.filter (fun f =>
    !(matchesSqlGlob f.name && decide (f.mtime < now - retention_period_hours * 3600)))

/-- The version-control working copy as `_setup_git_repo` observes it:
whether the export directory has a `.git` entry, and which remote names are
registered. -/
structure GitRepoState where
  has_git : Bool
  remotes : List String
deriving DecidableEq

/-- The observable outcome of `_setup_git_repo`: the `.git` test made it a
no-op, or init + remote add + pull all succeeded, or the named step exited
non-zero (logged and re-raised at line 94). -/
inductive SetupOutcome
  | noop
  | initialized
  | setupError (step : String)
deriving DecidableEq

/-- `DatabaseBackup._setup_git_repo` (lines 81-94).  The three exit codes
belong to `git init`, `git remote add origin <url>` and
`git pull origin main`; the `Nat` component counts git commands issued.
A successful `git init` creates the `.git` entry, so later failures still
leave `has_git` true; `remote add origin` appends the remote only when it
itself succeeds. -/
def setup_git_repo (initExit remoteExit pullExit : Nat) (st : GitRepoState) :
    SetupOutcome × GitRepoState × Nat :=
  if st.has_git then (SetupOutcome.noop, st, 0)
  else if initExit ≠ 0 then (SetupOutcome.setupError "init", st, 1)
  else if remoteExit ≠ 0 then
    (SetupOutcome.setupError "remote", { st with has_git := true }, 2)
  else if pullExit ≠ 0 then
    (SetupOutcome.setupError "pull",
      { has_git := true, remotes := st.remotes ++ ["origin"] }, 3)
  else
    (SetupOutcome.initialized,
      { has_git := true, remotes := st.remotes ++ ["origin"] }, 3)

/-- The external events one loop iteration could consume: the clock reading
used for the artifact name and file stamps, the three git exit codes and
the webhook result (these last four are consumed only by the gated branches
of the loop body, which the escaping `ValueError` makes unreachable). -/
structure CycleEnv where
  t : Timestamp
  addExit : Nat
  commitExit : Nat
  pushExit : Nat
  webhook : WebhookResult
  now : Int
deriving DecidableEq

/-- Counters for one iteration of the loop body (lines 178-191): how many
times each downstream step was invoked, and how long the final
`time.sleep` lasts in seconds. -/
structure CycleTrace where
  git_invocations : Nat
  discord_invocations : Nat
  sweep_invocations : Nat
  slept_seconds : Int
deriving DecidableEq

/-- The full observable result of one loop iteration: the trace, the value
the walrus would bind (`none` when `create_backup` did not return), the
per-archiver outcomes (`none` when the call was not reached), the message
of an exception escaping the iteration (`none` if the iteration completed),
the directory state in which `send_to_discord` and `cleanup_old_backups`
would run (i.e. after the git step), and the directory state at the end of
the iteration. -/
structure CycleResult where
  trace : CycleTrace
  artifact : Option String
  git_outcome : Option GitOutcome
  discord_outcome : Option DiscordOutcome
  crashed : Option String
  dir_at_archive : List FsFile
  dir_final : List FsFile
deriving DecidableEq

/-- One iteration of the `while True` body in `main` (lines 178-191).  An
exception from `create_backup` propagates at once: no downstream step runs
and the `time.sleep` at line 191 is never reached (`slept_seconds := 0`,
`crashed` carries the message).  Were `create_backup` to return, the walrus
test `if backup_file := create_backup(): ...` would gate the git archiver
(guarded by `config.use_git`), the webhook archiver (guarded by
`config.use_discord`) and the sweep, and the iteration would end with
`time.sleep(interval_hours * 60 * 60)` seconds; those branches mirror the
source text of lines 181-191 but are unreachable, since `create_backup`
always takes the error branch. -/
def run_cycle (cfg : BackupConfig) (e : CycleEnv) (dir : List FsFile) : CycleResult :=
  match create_backup cfg e.t e.now dir with
  | (Except.error msg, dir1) =>
      { trace :=
          { git_invocations := 0
            discord_invocations := 0
            sweep_invocations := 0
            slept_seconds := 0 }
        artifact := none
        git_outcome := none
        discord_outcome := none
        crashed := some msg
        dir_at_archive := dir1
        dir_final := dir1 }
  | (Except.ok (some file), dir1) =>
      { trace :=
          { git_invocations := if cfg.use_git then 1 else 0
            discord_invocations := if cfg.use_discord then 1 else 0
            sweep_invocations := 1
            slept_seconds := cfg.backup_interval_hours * 60 * 60 }
        artifact := some file
        git_outcome :=
          if cfg.use_git then
            some (commit_to_git cfg e.addExit e.commitExit e.pushExit dir1).1
          else none
        discord_outcome :=
          if cfg.use_discord then some (send_to_discord cfg e.webhook) else none
        crashed := none
        dir_at_archive :=
          if cfg.use_git then
            (commit_to_git cfg e.addExit e.commitExit e.pushExit dir1).2
          else dir1
        dir_final :=
          cleanup_old_backups cfg.retention_period_hours e.now
            (if cfg.use_git then
              (commit_to_git cfg e.addExit e.commitExit e.pushExit dir1).2
            else dir1) }
  | (Except.ok none, dir1) =>
      { trace :=
          { git_invocations := 0
            discord_invocations := 0
            sweep_invocations := 0
            slept_seconds := cfg.backup_interval_hours * 60 * 60 }
        artifact := none
        git_outcome := none
        discord_outcome := none
        crashed := none
        dir_at_archive := dir1
        dir_final := dir1 }

/-- The scheduler loop driven by a finite schedule of external events, one
`CycleEnv` per iteration; returns the trace of every iteration that ran, the
final directory, and the message of the exception that escaped the `while`
loop, if any.  A crashed cycle ends the loop at once: the exception reaches
the except-Exception handler of `main` (lines 195-197), which logs and
re-raises it, terminating the process, so no later cycle runs. -/
def main_loop (cfg : BackupConfig) (envs : List CycleEnv) (dir : List FsFile) :
    List CycleTrace × List FsFile × Option String :=
  match envs with
  | [] => ([], dir, none)
  | e :: rest =>
      match (run_cycle cfg e dir).crashed with
      | some msg => ([(run_cycle cfg e dir).trace], (run_cycle cfg e dir).dir_final, some msg)
      | none =>
          ((run_cycle cfg e dir).trace ::
              (main_loop cfg rest (run_cycle cfg e dir).dir_final).1,
            (main_loop cfg rest (run_cycle cfg e dir).dir_final).2.1,
            (main_loop cfg rest (run_cycle cfg e dir).dir_final).2.2)

/-- Every character of the string is a decimal digit. -/
def isDigitStr (s : String) : Bool :=
  s.data.all Char.isDigit

/-! ## Helper lemmas -/

lemma digitChar_isDigit (d : Nat) (h : d < 10) : (Nat.digitChar d).isDigit = true := by
  interval_cases d <;> rfl

lemma pad2_length (n : Nat) : (pad2 n).length = 2 := rfl

lemma pad4_length (n : Nat) : (pad4 n).length = 4 := rfl

lemma pad2_digits (n : Nat) : isDigitStr (pad2 n) = true := by
  have h1 := digitChar_isDigit (n / 10 % 10) (Nat.mod_lt _ (by norm_num))
  have h2 := digitChar_isDigit (n % 10) (Nat.mod_lt _ (by norm_num))
  simp [isDigitStr, pad2, h1, h2]

lemma pad4_digits (n : Nat) : isDigitStr (pad4 n) = true := by
  have h1 := digitChar_isDigit (n / 1000 % 10) (Nat.mod_lt _ (by norm_num))
  have h2 := digitChar_isDigit (n / 100 % 10) (Nat.mod_lt _ (by norm_num))
  have h3 := digitChar_isDigit (n / 10 % 10) (Nat.mod_lt _ (by norm_num))
  have h4 := digitChar_isDigit (n % 10) (Nat.mod_lt _ (by norm_num))
  simp [isDigitStr, pad4, h1, h2, h3, h4]

lemma isDigitStr_append (a b : String) :
    isDigitStr (a ++ b) = (isDigitStr a && isDigitStr b) := by
  simp [isDigitStr, String.data_append]

lemma commit_to_git_snd (cfg : BackupConfig) (a c p : Nat) (dir : List FsFile) :
    (commit_to_git cfg a c p dir).2 = dir := by
  unfold commit_to_git
  split_ifs <;> rfl

/-! ## Claim theorems -/

/-- C1: the claim says that on a dump-utility failure the call returns no
artifact and leaves the export directory unchanged.  In the code the dump
utility can never fail, because it never runs: evaluated at a concrete
input (empty directory, db name mydb, clock 2025-01-02 03:04:05, file stamp
1000), `create_backup` first creates the empty `mydb_20250102_030405.sql`
entry (the `open(mode w)` argument), then raises the `ValueError` from
`subprocess.run` — so the directory is changed, the empty artifact is
visible to the archivers and the sweeper, and the function does not return
at all. -/
theorem create_backup_always_raises :
    (create_backup ⟨false, false, "u", "p", "mydb", "/backups", none, 1, 1⟩
        ⟨2025, 1, 2, 3, 4, 5⟩ 1000 []).1 =
      Except.error "stdout and stderr arguments may not be used with capture_output." ∧
    (create_backup ⟨false, false, "u", "p", "mydb", "/backups", none, 1, 1⟩
        ⟨2025, 1, 2, 3, 4, 5⟩ 1000 []).2 =
      [⟨"mydb_20250102_030405.sql", 1000⟩] := by
  constructor <;> rfl

/-- C2 counterexample: the claim says the sweep deletes every regular file
(whatever its name or extension) whose mtime is strictly older than the
cutoff.  With retention 1 hour and clock 100000, a file named `stale.log`
with mtime 0 is strictly older than the cutoff, yet a successful sweep
keeps it: the code only iterates over the glob `*.sql`. -/
theorem cleanup_spares_old_non_sql_file :
    (0 : Int) < 100000 - 1 * 3600 ∧
    cleanup_old_backups 1 100000 [⟨"stale.log", 0⟩] = [⟨"stale.log", 0⟩] := by
  constructor
  · decide
  · rfl

/-- C2 amended: the sweep enumerates only the files matching `*.sql`; every
matching file whose mtime is strictly before `now - retentionHours` is
deleted by a successful sweep. -/
theorem cleanup_deletes_old_sql_files (retention now : Int) (dir : List FsFile)
    (f : FsFile) (hmem : f ∈ dir) (hsql : matchesSqlGlob f.name = true)
    (hold : f.mtime < now - retention * 3600) :
    f ∉ cleanup_old_backups retention now dir := by
  intro hin
  unfold cleanup_old_backups at hin
  have hkeep := (List.mem_filter.1 hin).2
  simp [hsql, hold] at hkeep

/-- Witness for the amended C2 theorem at a concrete input: with retention
1 hour and clock 100000, the sql file `db.sql` with mtime 0 is gone after
the sweep. -/
theorem cleanup_deletes_old_sql_files_witness :
    (⟨"db.sql", 0⟩ : FsFile) ∉ cleanup_old_backups 1 100000 [⟨"db.sql", 0⟩] :=
  cleanup_deletes_old_sql_files 1 100000 [⟨"db.sql", 0⟩] ⟨"db.sql", 0⟩
    (by decide) (by decide) (by decide)

/-- C7: the sweep compares with a strict inequality.  For any clock and
retention, given three `*.sql` files stamped one second before the cutoff,
exactly at the cutoff, and one second after it, a successful sweep deletes
only the first; and sweeping an empty directory deletes nothing and
performs no failing operation. -/
theorem cleanup_strict_cutoff (retention now : Int) (n1 n2 n3 : String)
    (h1 : matchesSqlGlob n1 = true) (h2 : matchesSqlGlob n2 = true)
    (h3 : matchesSqlGlob n3 = true) :
    cleanup_old_backups retention now
        [⟨n1, now - retention * 3600 - 1⟩, ⟨n2, now - retention * 3600⟩,
          ⟨n3, now - retention * 3600 + 1⟩] =
      [⟨n2, now - retention * 3600⟩, ⟨n3, now - retention * 3600 + 1⟩] ∧
    cleanup_old_backups retention now [] = [] := by
  have ha : now - retention * 3600 - 1 < now - retention * 3600 := by omega
  have hb : ¬(now - retention * 3600 < now - retention * 3600) := by omega
  have hc : ¬(now - retention * 3600 + 1 < now - retention * 3600) := by omega
  constructor
  · unfold cleanup_old_backups
    simp [List.filter, h1, h2, h3, ha, hb, hc]
  · rfl

/-- Witness for the C7 theorem at a concrete input: retention 2 hours,
clock 10000, files a.sql, b.sql, c.sql around the cutoff 2800. -/
theorem cleanup_strict_cutoff_witness :
    cleanup_old_backups 2 10000
        [⟨"a.sql", 10000 - 2 * 3600 - 1⟩, ⟨"b.sql", 10000 - 2 * 3600⟩,
          ⟨"c.sql", 10000 - 2 * 3600 + 1⟩] =
      [⟨"b.sql", 10000 - 2 * 3600⟩, ⟨"c.sql", 10000 - 2 * 3600 + 1⟩] ∧
    cleanup_old_backups 2 10000 [] = [] :=
  cleanup_strict_cutoff 2 10000 "a.sql" "b.sql" "c.sql"
    (by decide) (by decide) (by decide)

/-- C10: the sweep only ever deletes files whose names match the glob
`*.sql`; every file whose name does not end in .sql survives every
successful sweep, no matter how old its mtime is. -/
theorem cleanup_preserves_non_sql_files (retention now : Int) (dir : List FsFile)
    (f : FsFile) (hmem : f ∈ dir) (hnot : matchesSqlGlob f.name = false) :
    f ∈ cleanup_old_backups retention now dir := by
  unfold cleanup_old_backups
  refine List.mem_filter.2 ⟨hmem, ?_⟩
  simp [hnot]

/-- Witness for the C10 theorem at a concrete input: the ancient `.git`
entry survives a sweep with retention 1 hour at clock 999999. -/
theorem cleanup_preserves_non_sql_files_witness :
    (⟨".git", -5⟩ : FsFile) ∈ cleanup_old_backups 1 999999 [⟨".git", -5⟩] :=
  cleanup_preserves_non_sql_files 1 999999 [⟨".git", -5⟩] ⟨".git", -5⟩
    (by decide) (by decide)

/-- C3 counterexample: the claim says construction fails whenever Discord
delivery is enabled and the webhook URL is empty.  With every prompt
answered validly except an empty webhook URL, and Discord enabled, the code
returns a configuration rather than rejecting: the validation block checks
only credentials and the two intervals. -/
theorem from_user_input_accepts_empty_webhook :
    from_user_input ⟨"yes", "yes", "user", "pass", "db", "/backups", "", 1, 1⟩ =
      Except.ok ⟨true, true, "user", "pass", "db", "/backups", some "", 1, 1⟩ := by
  rfl

/-- C3 amended: construction validates only that the stripped user, password
and database name are non-empty and the two intervals are positive; under
those conditions it returns the configuration built from the answers, with
no check on the webhook URL, so when Discord is enabled and the URL is
empty the returned configuration has `webhook_url = some ""` and violates
the invariant (useDiscord implies webhookUrl non-empty). -/
theorem from_user_input_validates_credentials_only (i : UserInput)
    (hu : pyStrip i.db_user_answer ≠ "") (hp : pyStrip i.db_password_answer ≠ "")
    (hn : pyStrip i.db_name_answer ≠ "") (hi : 0 < i.backup_interval_hours)
    (hr : 0 < i.retention_period_hours) :
    from_user_input i =
      Except.ok
        { use_git := pyStartsWith (pyLower i.use_git_answer) "y"
          use_discord := pyStartsWith (pyLower i.use_discord_answer) "y"
          db_user := pyStrip i.db_user_answer
          db_password := pyStrip i.db_password_answer
          db_name := pyStrip i.db_name_answer
          export_dir := pyStrip i.export_dir_answer
          webhook_url :=
            if pyStartsWith (pyLower i.use_discord_answer) "y" then
              some (pyStrip i.webhook_url_answer)
            else none
          backup_interval_hours := i.backup_interval_hours
          retention_period_hours := i.retention_period_hours } := by
  unfold from_user_input
  rw [if_neg (by simp [hu, hp, hn]), if_neg (by omega)]

/-- Witness for the amended C3 theorem at a concrete input: Discord enabled,
webhook URL empty, valid credentials and intervals, construction succeeds. -/
theorem from_user_input_validates_credentials_only_witness :
    from_user_input ⟨"no", "Y", "root", "secret", "shop", "/var/backups", "", 2, 12⟩ =
      Except.ok
        { use_git := pyStartsWith (pyLower "no") "y"
          use_discord := pyStartsWith (pyLower "Y") "y"
          db_user := pyStrip "root"
          db_password := pyStrip "secret"
          db_name := pyStrip "shop"
          export_dir := pyStrip "/var/backups"
          webhook_url :=
            if pyStartsWith (pyLower "Y") "y" then some (pyStrip "") else none
          backup_interval_hours := 2
          retention_period_hours := 12 } :=
  from_user_input_validates_credentials_only
    ⟨"no", "Y", "root", "secret", "shop", "/var/backups", "", 2, 12⟩
    (by decide) (by decide) (by decide) (by decide) (by decide)

/-- C4 counterexample: the claim says every 200-class status is treated as
success.  Status 204 is in the 200-class, yet with Discord enabled and a
non-empty URL the code reports it as a logged failure: the comparison is
`status_code == 200` exactly. -/
theorem send_to_discord_204_failure :
    send_to_discord ⟨false, true, "u", "p", "db", "/b", some "https://hook", 1, 1⟩
        (WebhookResult.response 204) = DiscordOutcome.statusFailure 204 := by
  rfl

/-- C4 amended: with Discord enabled and a non-empty webhook URL, the
operation returns normally for every status and for every thrown transport
message, reporting success exactly when the status is 200 (not the whole
200-class); every other status is a logged status failure and every thrown
message is a logged caught failure, never re-raised. -/
theorem send_to_discord_success_iff_200 (cfg : BackupConfig) (res : WebhookResult)
    (hd : cfg.use_discord = true) (hw : cfg.webhook_url ≠ none)
    (hw2 : cfg.webhook_url ≠ some "") :
    (send_to_discord cfg res = DiscordOutcome.success ↔
      res = WebhookResult.response 200) ∧
    (∀ s : Nat, s ≠ 200 →
      send_to_discord cfg (WebhookResult.response s) = DiscordOutcome.statusFailure s) ∧
    (∀ m : String,
      send_to_discord cfg (WebhookResult.thrown m) = DiscordOutcome.caughtFailure m) := by
  have hcond : ¬(cfg.use_discord = false ∨ cfg.webhook_url = none ∨
      cfg.webhook_url = some "") := by
    simp [hd, hw, hw2]
  refine ⟨?_, ?_, ?_⟩
  · cases res with
    | response s =>
        by_cases h200 : s = 200 <;> simp [send_to_discord, hcond, h200]
    | thrown m => simp [send_to_discord, hcond]
  · intro s hs
    simp [send_to_discord, hcond, hs]
  · intro m
    simp [send_to_discord, hcond]

/-- Witness for the amended C4 theorem at a concrete input: Discord enabled
with a non-empty URL and a 200 response, the iff conjunct applies. -/
theorem send_to_discord_success_iff_200_witness :
    send_to_discord ⟨false, true, "u", "p", "db", "/b", some "https://hook", 1, 1⟩
        (WebhookResult.response 200) = DiscordOutcome.success ↔
      WebhookResult.response 200 = WebhookResult.response 200 :=
  (send_to_discord_success_iff_200
    ⟨false, true, "u", "p", "db", "/b", some "https://hook", 1, 1⟩
    (WebhookResult.response 200) (by decide) (by decide) (by decide)).1

/-- C8: repository setup is idempotent.  A first call on a directory with no
version-control metadata and all three git commands succeeding initializes
the working copy, registering origin once; any later call that sees the
`.git` entry returns without error, issues zero git commands, leaves the
state unchanged and in particular registers no duplicate origin remote. -/
theorem setup_git_repo_idempotent (i r p : Nat) (rs : List String) :
    setup_git_repo 0 0 0 ⟨false, rs⟩ =
      (SetupOutcome.initialized, ⟨true, rs ++ ["origin"]⟩, 3) ∧
    (∀ st : GitRepoState, st.has_git = true →
      setup_git_repo i r p st = (SetupOutcome.noop, st, 0)) := by
  constructor
  · rfl
  · intro st hst
    unfold setup_git_repo
    rw [hst]
    rfl

/-- Witness for the C8 theorem at a concrete input: the state produced by a
successful first call makes the second call a no-op with zero commands. -/
theorem setup_git_repo_idempotent_witness :
    setup_git_repo 1 1 1 ⟨true, ["origin"]⟩ =
      (SetupOutcome.noop, ⟨true, ["origin"]⟩, 0) :=
  (setup_git_repo_idempotent 1 1 1 []).2 ⟨true, ["origin"]⟩ rfl

/-- C9: the claim says a successful backup creates a file named exactly
`{dbName}_{8-digit-date}_{6-digit-time}.sql` inside the export directory.
In the code no call succeeds: for any configuration and any valid clock
reading, `create_backup` raises the `ValueError` from `subprocess.run`
rather than returning an artifact.  The file the call does create at the
computed target path (before the raise) bears exactly the claimed pattern:
the date block has length 8, the time block has length 6, both are all
decimal digits (YYYYMMDD and HHMMSS at second resolution) — but it is the
empty left-over of an always-failing call, not the product of a success. -/
theorem create_backup_never_succeeds_pattern (cfg : BackupConfig) (t : Timestamp)
    (now : Int) (dir : List FsFile) (hv : t.valid) :
    (create_backup cfg t now dir).1 =
      Except.error "stdout and stderr arguments may not be used with capture_output." ∧
    (pad4 t.year ++ pad2 t.month ++ pad2 t.day).length = 8 ∧
    isDigitStr (pad4 t.year ++ pad2 t.month ++ pad2 t.day) = true ∧
    (pad2 t.hour ++ pad2 t.minute ++ pad2 t.second).length = 6 ∧
    isDigitStr (pad2 t.hour ++ pad2 t.minute ++ pad2 t.second) = true ∧
    (⟨cfg.db_name ++ "_" ++ (pad4 t.year ++ pad2 t.month ++ pad2 t.day) ++ "_" ++
        (pad2 t.hour ++ pad2 t.minute ++ pad2 t.second) ++ ".sql", now⟩ : FsFile) ∈
      (create_backup cfg t now dir).2 := by
  have hname : backup_filename cfg.db_name t =
      cfg.db_name ++ "_" ++ (pad4 t.year ++ pad2 t.month ++ pad2 t.day) ++ "_" ++
        (pad2 t.hour ++ pad2 t.minute ++ pad2 t.second) ++ ".sql" := by
    unfold backup_filename strftime_backup
    simp [String.append_assoc]
  refine ⟨rfl, ?_, ?_, ?_, ?_, ?_⟩
  · simp [String.length_append, pad4_length, pad2_length]
  · simp [isDigitStr_append, pad4_digits, pad2_digits]
  · simp [String.length_append, pad2_length]
  · simp [isDigitStr_append, pad2_digits]
  · rw [← hname]
    simp [create_backup, writeFile]

/-- Witness for the C9 theorem at a concrete input: db name mydb at
2025-01-02 03:04:05, the call raises and the left-over entry carries the
pattern name. -/
theorem create_backup_never_succeeds_pattern_witness :
    (create_backup ⟨false, false, "u", "p", "mydb", "/b", none, 1, 1⟩
        ⟨2025, 1, 2, 3, 4, 5⟩ 777 []).1 =
      Except.error "stdout and stderr arguments may not be used with capture_output." ∧
    (pad4 2025 ++ pad2 1 ++ pad2 2).length = 8 ∧
    isDigitStr (pad4 2025 ++ pad2 1 ++ pad2 2) = true ∧
    (pad2 3 ++ pad2 4 ++ pad2 5).length = 6 ∧
    isDigitStr (pad2 3 ++ pad2 4 ++ pad2 5) = true ∧
    (⟨"mydb" ++ "_" ++ (pad4 2025 ++ pad2 1 ++ pad2 2) ++ "_" ++
        (pad2 3 ++ pad2 4 ++ pad2 5) ++ ".sql", 777⟩ : FsFile) ∈
      (create_backup ⟨false, false, "u", "p", "mydb", "/b", none, 1, 1⟩
        ⟨2025, 1, 2, 3, 4, 5⟩ 777 []).2 :=
  create_backup_never_succeeds_pattern ⟨false, false, "u", "p", "mydb", "/b", none, 1, 1⟩
    ⟨2025, 1, 2, 3, 4, 5⟩ 777 [] (by decide)

/-- C5: the claim says that when the Backup Producer fails, the cycle
performs zero archiver and zero sweep invocations but still sleeps and
retries next cycle.  In the code every cycle's `create_backup` fails — by
raising the `ValueError` from `subprocess.run` — and the exception escapes
the loop body: zero git, webhook and sweep invocations do occur, but the
`time.sleep` at line 191 is never reached (zero seconds slept) and no later
cycle runs, because the exception reaches the handler at lines 195-197
which logs and re-raises it, terminating the process with exactly one cycle
trace recorded however many cycles were scheduled. -/
theorem backup_failure_crashes_loop (cfg : BackupConfig) (e : CycleEnv)
    (dir : List FsFile) :
    (run_cycle cfg e dir).trace =
      { git_invocations := 0, discord_invocations := 0, sweep_invocations := 0,
        slept_seconds := 0 } ∧
    (run_cycle cfg e dir).crashed =
      some "stdout and stderr arguments may not be used with capture_output." ∧
    ∀ rest : List CycleEnv,
      (main_loop cfg (e :: rest) dir).1.length = 1 ∧
      (main_loop cfg (e :: rest) dir).2.2 =
        some "stdout and stderr arguments may not be used with capture_output." := by
  refine ⟨rfl, rfl, ?_⟩
  intro rest
  constructor <;> rfl

/-- C6: the claim quantifies over cycles in which `create_backup` succeeds
and the git archiver fails.  In the code no such cycle exists: every cycle
crashes inside `create_backup` before the git archiver can be invoked, so
the git outcome of every cycle is `none` (the call at line 183 is never
reached) and the exception carries the `ValueError` message.  The
function-level half of the claim is real: `commit_to_git` never deletes
anything — whatever exit codes its git sub-steps would report, it returns
the working tree unchanged. -/
theorem git_failure_isolation_unreachable (cfg : BackupConfig) (e : CycleEnv)
    (dir : List FsFile) :
    (run_cycle cfg e dir).git_outcome = none ∧
    (run_cycle cfg e dir).discord_outcome = none ∧
    (run_cycle cfg e dir).trace.sweep_invocations = 0 ∧
    (run_cycle cfg e dir).crashed =
      some "stdout and stderr arguments may not be used with capture_output." ∧
    ∀ a c p : Nat, ∀ d : List FsFile, (commit_to_git cfg a c p d).2 = d := by
  refine ⟨rfl, rfl, rfl, rfl, ?_⟩
  intro a c p d
  exact commit_to_git_snd cfg a c p d
